import Mathlib

/-!
# Verification of the spondex sync core

Shallow embedding of the spondex repository's sync engine, scheduler,
service clients, matcher and storage layer, with theorems checking the
natural-language specification against the code.

Conventions:
* Python `str` is `String`, `int` is `Int`/`Nat`, `float` is `ℚ` (exact
  model of the float arithmetic the code performs), `None`-able values are
  `Option`.
* Fallible operations (SQL statements that can hit constraint violations)
  return `Except String`.
* External service calls are modelled by pure functions supplied as an
  environment; a client "write" operation returns the list of request
  payloads it would issue, in order.
-/

namespace Spondex

/-- The `SyncMode` literal from `storage/models.py`: `Literal["full", "incremental"]`. -/
inductive SyncMode
  | full
  | incremental
deriving DecidableEq, Repr

/-- The `SyncState` enum from `sync/engine.py`. -/
inductive SyncState
  | idle
  | syncing
  | paused
  | error
  | shutting_down
deriving DecidableEq, Repr

/-! ## Engine entry (`SyncEngine.run_sync`, engine.py lines 95-109)

The engine holds an `asyncio.Lock`; `run_sync` first checks
`self._lock.locked()` and raises `RuntimeError("Sync already in progress")`,
otherwise acquires the lock and sets the state to `SYNCING`.  In asyncio's
cooperative scheduling there is no suspension point between the `locked()`
check and the uncontended acquisition, so the check-and-acquire step is
atomic with respect to other tasks; we model it as one transition. -/

/-- Engine-visible state for the single-flight check: the `_state` field and
whether `_lock` is held. -/
structure Engine where
  state : SyncState
  locked : Bool
deriving DecidableEq, Repr

/-- The entry step of `run_sync`: fail fast when the lock is held, else
acquire the lock and move to `SYNCING`.  Models engine.py lines 97-101. -/
def run_sync_enter (e : Engine) : Except String Engine :=
  if e.locked then Except.error "Sync already in progress"
  else Except.ok { state := SyncState.syncing, locked := true }

/-- The exit step of `run_sync`: on success the state returns to `IDLE`, on
an exception it becomes `ERROR` and the exception is re-raised; the lock is
released either way (`async with`).  Models engine.py lines 102-109. -/
def run_sync_exit (result : Except String String) : Engine × Except String String :=
  match result with
  | Except.ok s => ({ state := SyncState.idle, locked := false }, Except.ok s)
  | Except.error msg => ({ state := SyncState.error, locked := false }, Except.error msg)

/-! ## Effective mode (`SyncEngine._do_sync`, engine.py lines 111-119) -/

/-- A row of the `sync_runs` table (storage/models.py / database.py schema). -/
structure SyncRunRow where
  id : Nat
  started_at : String
  finished_at : Option String
  direction : String
  mode : String
  status : String
  stats_json : Option String
  error_message : Option String
deriving DecidableEq, Repr

/-- The mode decision at the top of `_do_sync`: no successful previous run
forces `full`; otherwise a given override wins; otherwise the configured
default.  (`elif mode_override:` on the non-empty literals "full" /
"incremental" is equivalent to an `is not None` test.) -/
def effective_mode (last_run : Option SyncRunRow) (mode_override : Option SyncMode)
    (config_mode : SyncMode) : SyncMode :=
  match last_run with
  | none => SyncMode.full
  | some _ =>
    match mode_override with
    | some m => m
    | none => config_mode

/-! ## Client batching (`sync/spotify.py`, `sync/yandex.py`)

A write operation is modelled by the list of request payloads (id lists)
it issues, in order. -/

/-- The loop `for i in range(0, len(ids), n): batch = ids[i:i+n]` — the successive
slices of size `n`.  Only invoked with `n = 50` in the source (`_BATCH_SIZE`);
the `n = 0` case is unreachable there. -/
def batches : Nat → List String → List (List String)
  | _, [] => []
  | 0, _ :: _ => []
  | n + 1, x :: xs => (x :: xs).take (n + 1) :: batches (n + 1) (xs.drop n)
termination_by _ l => l.length
decreasing_by
  simp only [List.length_cons, List.length_drop]
  omega

/-- Model of `SpotifyClient.save_tracks` (spotify.py lines 220-224): PUT requests in
batches of `_BATCH_SIZE = 50`. -/
def save_tracks (track_ids : List String) : List (List String) :=
  batches 50 track_ids

/-- Model of `SpotifyClient.remove_tracks` (spotify.py lines 226-230): DELETE requests
in batches of `_BATCH_SIZE = 50`. -/
def remove_tracks (track_ids : List String) : List (List String) :=
  batches 50 track_ids

/-- Model of `YandexClient.like_tracks` (yandex.py lines 129-135): a single
`users_likes_tracks_add(track_ids)` call with the whole list, guarded by
`if track_ids:`.  No batching is applied. -/
def like_tracks (track_ids : List String) : List (List String) :=
  if track_ids = [] then [] else [track_ids]

/-- Model of `YandexClient.unlike_tracks` (yandex.py lines 137-143): a single
`users_likes_tracks_remove(track_ids)` call, guarded by `if track_ids:`. -/
def unlike_tracks (track_ids : List String) : List (List String) :=
  if track_ids = [] then [] else [track_ids]

/-! ## Store: `collection_track` (`Database.add_track_to_collection`,
database.py lines 256-279) -/

/-- A row of the `collection_track` table. -/
structure CollectionTrack where
  collection_id : Nat
  track_mapping_id : Nat
  position : Option Nat
  added_at : Option String
  synced_at : Option String
  removed_at : Option String
deriving DecidableEq, Repr

/-- Key match for the `UNIQUE(collection_id, track_mapping_id)` constraint. -/
def ct_key (cid tid : Nat) (r : CollectionTrack) : Bool :=
  r.collection_id == cid && r.track_mapping_id == tid

/-- The statement `INSERT INTO collection_track ... ON CONFLICT (collection_id,
track_mapping_id) DO UPDATE SET position = excluded.position,
synced_at = excluded.synced_at, removed_at = NULL`.  The conflict update
does not touch `added_at`. -/
def add_track_to_collection (rows : List CollectionTrack) (cid tid : Nat)
    (position : Option Nat) (added_at : Option String) (now : String) :
    List CollectionTrack :=
  if rows.any (ct_key cid tid) then
    rows.map fun r =>
      if ct_key cid tid r then
        { r with position := position, synced_at := some now, removed_at := none }
      else r
  else
    rows ++ [{ collection_id := cid, track_mapping_id := tid, position := position,
               added_at := added_at, synced_at := some now, removed_at := none }]

/-! ## Store: `track_mapping` (`Database.upsert_track_mapping`,
database.py lines 120-152)

The SQL is an INSERT with two ON CONFLICT clauses, one per unique remote-id
column; the matching clause updates the conflicted row, using
`COALESCE(excluded.x, track_mapping.x)` for the counterpart id and leaving
`created_at` untouched.  An update that would itself break the other unique
constraint, or an insert with both ids null (the CHECK constraint), raises. -/

/-- A row of the `track_mapping` table. -/
structure TrackMapping where
  id : Nat
  spotify_id : Option String
  yandex_id : Option String
  artist : String
  title : String
  match_confidence : ℚ
  created_at : String
  updated_at : String
deriving DecidableEq, Repr

/-- The `track_mapping` table with its autoincrement counter. -/
structure MappingTable where
  rows : List TrackMapping
  next_id : Nat
deriving DecidableEq, Repr

/-- SQL `COALESCE(excluded_value, stored_value)`. -/
def coalesce (excluded stored : Option String) : Option String :=
  match excluded with
  | some v => some v
  | none => stored

/-- The DO UPDATE applied to the conflicted row `r0` on a `spotify_id`
conflict: refresh `yandex_id` via COALESCE, artist, title, confidence and
`updated_at`; `spotify_id` and `created_at` are not in the SET list. -/
def update_on_spotify_conflict (r0 : TrackMapping) (yandex_id : Option String)
    (artist title : String) (match_confidence : ℚ) (now : String) : TrackMapping :=
  { r0 with
    yandex_id := coalesce yandex_id r0.yandex_id,
    artist := artist, title := title,
    match_confidence := match_confidence, updated_at := now }

/-- The DO UPDATE applied on a `yandex_id` conflict (symmetric). -/
def update_on_yandex_conflict (r0 : TrackMapping) (spotify_id : Option String)
    (artist title : String) (match_confidence : ℚ) (now : String) : TrackMapping :=
  { r0 with
    spotify_id := coalesce spotify_id r0.spotify_id,
    artist := artist, title := title,
    match_confidence := match_confidence, updated_at := now }

/-- Model of `Database.upsert_track_mapping`.  `now` stands for the `_now_iso()`
timestamp taken once for both `created_at` and `updated_at` of a fresh
insert.  Returns the updated table and the RETURNING row. -/
def upsert_track_mapping (t : MappingTable) (artist title : String)
    (spotify_id yandex_id : Option String) (match_confidence : ℚ) (now : String) :
    Except String (MappingTable × TrackMapping) :=
  match spotify_id.bind (fun s => t.rows.find? (fun r => r.spotify_id == some s)) with
  | some r0 =>
    let r1 := update_on_spotify_conflict r0 yandex_id artist title match_confidence now
    if t.rows.any (fun r => r.id != r0.id && r1.yandex_id.isSome && r.yandex_id == r1.yandex_id) then
      Except.error "UNIQUE constraint failed: track_mapping.yandex_id"
    else
      Except.ok ({ t with rows := t.rows.map fun r => if r.id == r0.id then r1 else r }, r1)
  | none =>
    match yandex_id.bind (fun y => t.rows.find? (fun r => r.yandex_id == some y)) with
    | some r0 =>
      let r1 := update_on_yandex_conflict r0 spotify_id artist title match_confidence now
      if t.rows.any (fun r => r.id != r0.id && r1.spotify_id.isSome && r.spotify_id == r1.spotify_id) then
        Except.error "UNIQUE constraint failed: track_mapping.spotify_id"
      else
        Except.ok ({ t with rows := t.rows.map fun r => if r.id == r0.id then r1 else r }, r1)
    | none =>
      if spotify_id.isNone && yandex_id.isNone then
        Except.error "CHECK constraint failed: spotify_id IS NOT NULL OR yandex_id IS NOT NULL"
      else
        let r1 : TrackMapping :=
          { id := t.next_id, spotify_id := spotify_id, yandex_id := yandex_id,
            artist := artist, title := title, match_confidence := match_confidence,
            created_at := now, updated_at := now }
        Except.ok ({ rows := t.rows ++ [r1], next_id := t.next_id + 1 }, r1)

/-! ## Store: `sync_runs` (`Database.start_sync_run` / `finish_sync_run`,
database.py lines 364-403) -/

/-- The `sync_runs` table with its autoincrement counter. -/
structure RunStore where
  runs : List SyncRunRow
  next_run_id : Nat
deriving DecidableEq, Repr

/-- Model of `Database.start_sync_run`: inserts a row with status `running` and a
null `finished_at`. -/
def start_sync_run (st : RunStore) (direction mode now : String) :
    RunStore × SyncRunRow :=
  let row : SyncRunRow :=
    { id := st.next_run_id, started_at := now, finished_at := none,
      direction := direction, mode := mode, status := "running",
      stats_json := none, error_message := none }
  ({ runs := st.runs ++ [row], next_run_id := st.next_run_id + 1 }, row)

/-- Model of `Database.finish_sync_run`: `UPDATE sync_runs SET finished_at, status,
stats_json, error_message WHERE id = ?`. -/
def finish_sync_run (st : RunStore) (run_id : Nat) (status : String)
    (stats_json error_message : Option String) (now : String) : RunStore :=
  { st with
    runs := st.runs.map fun r =>
      if r.id == run_id then
        { r with finished_at := some now, status := status,
                 stats_json := stats_json, error_message := error_message }
      else r }

/-! ## `SyncEngine._do_sync` / `run_sync` around the cycle body
(engine.py lines 95-150)

The cycle body (client sessions, full or incremental sync) is abstracted by
its outcome: `Except.ok stats_json` or `Except.error message` for an
exception escaping it.  `_do_sync` opens the SyncRun first, then finishes it
as `completed` or as `failed` with the error message, re-raising. -/

/-- The try/except of `_do_sync` around the cycle body (engine.py lines
124-150): open the run, dispatch on the body's outcome, close the run. -/
def do_sync_wrap (st : RunStore) (mode : String) (body : Except String String)
    (now : String) : RunStore × Except String String :=
  let (st1, run) := start_sync_run st "bidirectional" mode now
  match body with
  | Except.ok stats =>
    (finish_sync_run st1 run.id "completed" (some stats) none now, Except.ok stats)
  | Except.error msg =>
    (finish_sync_run st1 run.id "failed" none (some msg) now, Except.error msg)

/-- Whole-call view of `run_sync` (engine.py lines 95-109): busy check, then
`_do_sync`; on success state returns to `IDLE`, on an exception the state
becomes `ERROR` and the exception propagates; the lock is released on both
exits. -/
def run_sync (e : Engine) (st : RunStore) (mode : String)
    (body : Except String String) (now : String) :
    Engine × RunStore × Except String String :=
  if e.locked then (e, st, Except.error "Sync already in progress")
  else
    let (st1, res) := do_sync_wrap st mode body now
    match res with
    | Except.ok s => ({ state := SyncState.idle, locked := false }, st1, Except.ok s)
    | Except.error m => ({ state := SyncState.error, locked := false }, st1, Except.error m)

/-! ## Scheduler (`sync/scheduler.py`)

The loop of `SyncScheduler._loop` is modelled one iteration at a time.  An
iteration (after the first) clears the trigger event, then waits; external
calls (`trigger_now`, `pause`, `resume`, `stop`) arriving during the wait
are a list of operations applied in order.  After the wait the loop checks
the stop event, then the paused flag (a paused iteration just `continue`s —
note it clears neither `_trigger_mode` nor the event), then consumes the
trigger mode and runs the engine inside try/except. -/

/-- The scheduler fields that drive the loop. -/
structure SchedState where
  paused : Bool
  stop_set : Bool
  trigger_set : Bool
  trigger_mode : Option SyncMode
  first_run : Bool
  default_mode : SyncMode
deriving DecidableEq, Repr

/-- External control operations on the scheduler. -/
inductive SchedOp
  | trigger_now (mode : Option SyncMode)
  | pause
  | resume
  | stop
deriving DecidableEq, Repr

/-- Effect of one external call (scheduler.py lines 51-73): `trigger_now`
stores the mode override and sets the event; `stop` sets both the stop and
trigger events to wake the loop. -/
def apply_op (s : SchedState) : SchedOp → SchedState
  | SchedOp.trigger_now m => { s with trigger_mode := m, trigger_set := true }
  | SchedOp.pause => { s with paused := true }
  | SchedOp.resume => { s with paused := false }
  | SchedOp.stop => { s with stop_set := true, trigger_set := true }

/-- The state in which the loop waits: a non-first iteration clears the
trigger event before waiting (scheduler.py line 99); the first iteration
does not wait at all. -/
def wait_state (s : SchedState) : SchedState :=
  if s.first_run then s else { s with trigger_set := false }

/-- Result of one loop iteration. -/
inductive IterResult
  | halted
  | skipped
  | synced (mode : SyncMode) (ok : Bool)
deriving DecidableEq, Repr

/-- One iteration of `SyncScheduler._loop` (scheduler.py lines 85-121).
`ops` are the external calls arriving before the post-wait checks;
`engine_ok` tells whether `run_sync` succeeds or raises.  An engine error
is caught and logged; only the stop event halts the loop. -/
def loop_iteration (s : SchedState) (ops : List SchedOp) (engine_ok : Bool) :
    SchedState × IterResult :=
  let s1 := { ops.foldl apply_op (wait_state s) with first_run := false }
  if s1.stop_set then (s1, IterResult.halted)
  else if s1.paused then (s1, IterResult.skipped)
  else
    let mode := s1.trigger_mode.getD s1.default_mode
    let s2 := { s1 with trigger_mode := none, trigger_set := false }
    (s2, IterResult.synced mode engine_ok)

/-! ## Text normaliser (`sync/differ.py`)

`normalize` is `NFKD → lower → three regex substitutions → punctuation
strip → whitespace collapse → strip`.  The regex substitutions
(`re.sub` with the concrete patterns of differ.py) are implemented
directly as scanners over `List Char` with Python's leftmost,
non-overlapping, greedy-with-backtracking semantics.

The standard-library pieces (`unicodedata.normalize("NFKD", ·)`,
`str.lower`, the `\w` and `\s` character classes) are modelled on the
character repertoire the program actually processes — ASCII and the
Cyrillic block (including the decomposable `ё`/`й`); characters outside
it are left unchanged. -/

/-- Python `\s` (ASCII part of the class; the inputs of this program do not
use the exotic Unicode spaces). -/
def isPySpace (c : Char) : Bool :=
  c == ' ' || c == '\t' || c == '\n' || c == '\r' || c == '\x0b' || c == '\x0c'

/-- Python `\w` on the modelled repertoire: ASCII alphanumerics and
underscore, plus Cyrillic letters.  Combining marks (U+0300-U+036F) are not
word characters. -/
def isWordChar (c : Char) : Bool :=
  ('0' ≤ c && c ≤ '9') || ('a' ≤ c && c ≤ 'z') || ('A' ≤ c && c ≤ 'Z') || c == '_' ||
  (0x400 ≤ c.toNat && c.toNat ≤ 0x481) || (0x48A ≤ c.toNat && c.toNat ≤ 0x4FF)

/-- Python `str.lower` per character on the modelled repertoire (ASCII letters,
Cyrillic А-Я and Ё). -/
def lowerChar (c : Char) : Char :=
  if 'A' ≤ c && c ≤ 'Z' then Char.ofNat (c.toNat + 32)
  else if 0x410 ≤ c.toNat && c.toNat ≤ 0x42F then Char.ofNat (c.toNat + 32)
  else if c.toNat == 0x401 then Char.ofNat 0x451
  else c

/-- Python `unicodedata.normalize("NFKD", ·)` per character on the modelled
repertoire: `Ё`/`ё` decompose to `Е`/`е` + combining diaeresis (U+0308),
`Й`/`й` to `И`/`и` + combining breve (U+0306); ASCII and the remaining
Cyrillic letters have no decomposition. -/
def nfkdChar (c : Char) : List Char :=
  if c.toNat == 0x401 then [Char.ofNat 0x415, Char.ofNat 0x308]
  else if c.toNat == 0x451 then [Char.ofNat 0x435, Char.ofNat 0x308]
  else if c.toNat == 0x419 then [Char.ofNat 0x418, Char.ofNat 0x306]
  else if c.toNat == 0x439 then [Char.ofNat 0x438, Char.ofNat 0x306]
  else [c]

/-- NFKD over a string. -/
def nfkd (text : String) : String :=
  ⟨(text.data.map nfkdChar).flatten⟩

/-- Python `str.lower` over a string. -/
def python_lower (text : String) : String :=
  ⟨text.data.map lowerChar⟩

/-- Opening bracket: `(` or `[`. -/
def isOpener (c : Char) : Bool := c == '(' || c == '['

/-- Closing bracket: `)` or `]`. -/
def isCloser (c : Char) : Bool := c == ')' || c == ']'

theorem length_dropWhile_le (p : Char → Bool) (l : List Char) :
    (l.dropWhile p).length ≤ l.length := by
  induction l with
  | nil => simp
  | cons c rest ih =>
    simp only [List.dropWhile]
    split
    · simp only [List.length_cons]; omega
    · simp

/-- Match a literal prefix, returning the remainder. -/
def dropPrefixQ (p s : List Char) : Option (List Char) :=
  if p.isPrefixOf s then some (s.drop p.length) else none

theorem dropPrefixQ_length {p s u : List Char} (h : dropPrefixQ p s = some u) :
    u.length + p.length = s.length ∧ p.length ≤ s.length := by
  unfold dropPrefixQ at h
  split at h
  · rename_i hp
    cases h
    have hle := (List.isPrefixOf_iff_prefix.mp hp).length_le
    refine ⟨?_, hle⟩
    simp only [List.length_drop]
    omega
  · exact absurd h (by simp)

/-- The ordered alternation `(feat\.?|ft\.?|featuring)` followed by a
continuation `k` on the remainder; Python's backtracking tries the
alternatives (and the greedy optional dot) in this order. -/
def feat_alt_then (k : List Char → Option (List Char)) (s : List Char) :
    Option (List Char) :=
  ((dropPrefixQ ['f', 'e', 'a', 't', '.'] s).bind k).orElse fun _ =>
  ((dropPrefixQ ['f', 'e', 'a', 't'] s).bind k).orElse fun _ =>
  ((dropPrefixQ ['f', 't', '.'] s).bind k).orElse fun _ =>
  ((dropPrefixQ ['f', 't'] s).bind k).orElse fun _ =>
  ((dropPrefixQ ['f', 'e', 'a', 't', 'u', 'r', 'i', 'n', 'g'] s).bind k)

theorem feat_alt_then_length {k : List Char → Option (List Char)}
    (hk : ∀ u r, k u = some r → r.length ≤ u.length)
    {s r : List Char} (h : feat_alt_then k s = some r) : r.length < s.length := by
  have step : ∀ (p : List Char), 2 ≤ p.length →
      (dropPrefixQ p s).bind k = some r → r.length < s.length := by
    intro p hp hb
    cases hd : dropPrefixQ p s with
    | none => rw [hd] at hb; exact absurd hb (by simp)
    | some u =>
      rw [hd] at hb
      have hku : k u = some r := hb
      have hlen := dropPrefixQ_length hd
      have := hk u r hku
      omega
  unfold feat_alt_then at h
  rw [Option.orElse_eq_some'] at h
  rcases h with h | ⟨-, h⟩
  · exact step _ (by decide) h
  rw [Option.orElse_eq_some'] at h
  rcases h with h | ⟨-, h⟩
  · exact step _ (by decide) h
  rw [Option.orElse_eq_some'] at h
  rcases h with h | ⟨-, h⟩
  · exact step _ (by decide) h
  rw [Option.orElse_eq_some'] at h
  rcases h with h | ⟨-, h⟩
  · exact step _ (by decide) h
  · exact step _ (by decide) h

/-- Tail of the parenthesised-feat pattern after the alternation:
`\s+[^\)\]]*[\)\]]` — at least one whitespace, then everything up to and
including the first closer. -/
def feat_paren_tail (u : List Char) : Option (List Char) :=
  match u with
  | c :: rest =>
    if isPySpace c then
      match rest.dropWhile (fun d => !isCloser d) with
      | _ :: tail => some tail
      | [] => none
    else none
  | [] => none

theorem feat_paren_tail_length {u r : List Char} (h : feat_paren_tail u = some r) :
    r.length ≤ u.length := by
  cases u with
  | nil => exact absurd h (by simp [feat_paren_tail])
  | cons c rest =>
    simp only [feat_paren_tail] at h
    split at h
    · split at h
      · rename_i x tail hb
        cases h
        have h1 := length_dropWhile_le (fun d => !isCloser d) rest
        rw [hb] at h1
        simp only [List.length_cons] at h1 ⊢
        omega
      · exact absurd h (by simp)
    · exact absurd h (by simp)

/-- Pattern 1, `re.sub(r"\s*[\(\[](feat\.?|ft\.?|featuring)\s+[^\)\]]*[\)\]]", "", ·)`:
attempt at one position — optional whitespace, an opener, the feat
alternation, then `\s+[^\)\]]*[\)\]]`.  Returns the remainder after the
match. -/
def feat_paren_match_at (s : List Char) : Option (List Char) :=
  match s.dropWhile isPySpace with
  | c :: rest => if isOpener c then feat_alt_then feat_paren_tail rest else none
  | [] => none

theorem feat_paren_match_at_length {s r : List Char}
    (h : feat_paren_match_at s = some r) : r.length < s.length := by
  simp only [feat_paren_match_at] at h
  split at h
  · rename_i c rest hd
    split at h
    · have h1 := feat_alt_then_length (fun u r hu => feat_paren_tail_length hu) h
      have h2 := length_dropWhile_le isPySpace s
      rw [hd] at h2
      simp only [List.length_cons] at h2
      omega
    · exact absurd h (by simp)
  · exact absurd h (by simp)

/-- Tail of the inline-feat pattern after the alternation: `\s+.*$` with
`.` not matching newline and `$` accepting at the end of the string or
before a final newline.  Succeeds exactly when the first character is
whitespace and, past the maximal whitespace run, no newline occurs except
as the very last character; the unconsumed remainder is that kept final
newline (or nothing). -/
def inline_feat_tail (u : List Char) : Option (List Char) :=
  match u with
  | c :: rest =>
    if isPySpace c then
      let after := (c :: rest).dropWhile isPySpace
      if after.dropLast.all (fun d => d != '\n') then
        if after.getLast? == some '\n' then some ['\n'] else some []
      else none
    else none
  | [] => none

theorem inline_feat_tail_length {u r : List Char} (h : inline_feat_tail u = some r) :
    r.length ≤ u.length := by
  cases u with
  | nil => exact absurd h (by simp [inline_feat_tail])
  | cons c rest =>
    simp only [inline_feat_tail] at h
    split at h
    · split at h
      · split at h
        · cases h
          simp
        · cases h
          simp
      · exact absurd h (by simp)
    · exact absurd h (by simp)

/-- Pattern 2, `re.sub(r"\s+(feat\.?|ft\.?|featuring)\s+.*$", "", ·)`: attempt at one
position — at least one whitespace (maximal run; the alternatives all start
with a non-space), the feat alternation, then `\s+.*$`. -/
def inline_feat_match_at (s : List Char) : Option (List Char) :=
  match s with
  | c :: rest =>
    if isPySpace c then
      feat_alt_then inline_feat_tail ((c :: rest).dropWhile isPySpace)
    else none
  | [] => none

theorem inline_feat_match_at_length {s r : List Char}
    (h : inline_feat_match_at s = some r) : r.length < s.length := by
  cases s with
  | nil => exact absurd h (by simp [inline_feat_match_at])
  | cons c rest =>
    simp only [inline_feat_match_at] at h
    split at h
    · have h1 := feat_alt_then_length (fun u r hu => inline_feat_tail_length hu) h
      have h2 := length_dropWhile_le isPySpace (c :: rest)
      omega
    · exact absurd h (by simp)

/-- Pattern 3, `re.sub(r"\s*[\(\[][^\)\]]*[\)\]]", "", ·)`: attempt at one position —
optional whitespace, an opener, everything up to and including the first
closer. -/
def paren_match_at (s : List Char) : Option (List Char) :=
  match s.dropWhile isPySpace with
  | c :: rest =>
    if isOpener c then
      match rest.dropWhile (fun d => !isCloser d) with
      | _ :: tail => some tail
      | [] => none
    else none
  | [] => none

theorem paren_match_at_length {s r : List Char} (h : paren_match_at s = some r) :
    r.length < s.length := by
  simp only [paren_match_at] at h
  split at h
  · rename_i c rest hd
    split at h
    · split at h
      · rename_i x tail hb
        cases h
        have h1 := length_dropWhile_le (fun d => !isCloser d) rest
        rw [hb] at h1
        have h2 := length_dropWhile_le isPySpace s
        rw [hd] at h2
        simp only [List.length_cons] at h1 h2
        omega
      · exact absurd h (by simp)
    · exact absurd h (by simp)
  · exact absurd h (by simp)

/-- Leftmost non-overlapping substitution scanner for the
parenthesised-feat pattern.  The scanners recurse on an explicit fuel so
that they reduce by structural recursion; `l.length + 1` always suffices
because every step strictly shortens the remaining input
(`feat_paren_match_at_length` and friends), so the fuel-exhausted arm is
never reached. -/
def sub_feat_paren_fuel : Nat → List Char → List Char
  | 0, l => l
  | _ + 1, [] => []
  | fuel + 1, c :: rest =>
    match feat_paren_match_at (c :: rest) with
    | some r => sub_feat_paren_fuel fuel r
    | none => c :: sub_feat_paren_fuel fuel rest

/-- The `re.sub` of the parenthesised-feat pattern with the empty replacement. -/
def sub_feat_paren (l : List Char) : List Char :=
  sub_feat_paren_fuel (l.length + 1) l

/-- Leftmost non-overlapping substitution scanner for the inline-feat
pattern (fuelled as above; see `inline_feat_match_at_length`). -/
def sub_inline_feat_fuel : Nat → List Char → List Char
  | 0, l => l
  | _ + 1, [] => []
  | fuel + 1, c :: rest =>
    match inline_feat_match_at (c :: rest) with
    | some r => sub_inline_feat_fuel fuel r
    | none => c :: sub_inline_feat_fuel fuel rest

/-- The `re.sub` of the inline-feat pattern with the empty replacement. -/
def sub_inline_feat (l : List Char) : List Char :=
  sub_inline_feat_fuel (l.length + 1) l

/-- Leftmost non-overlapping substitution scanner for the general
bracketed-content pattern (fuelled as above; see `paren_match_at_length`). -/
def sub_paren_fuel : Nat → List Char → List Char
  | 0, l => l
  | _ + 1, [] => []
  | fuel + 1, c :: rest =>
    match paren_match_at (c :: rest) with
    | some r => sub_paren_fuel fuel r
    | none => c :: sub_paren_fuel fuel rest

/-- The `re.sub` of the bracketed-content pattern with the empty replacement. -/
def sub_paren (l : List Char) : List Char :=
  sub_paren_fuel (l.length + 1) l

/-- Pattern 5, `re.sub(r"\s+", " ", ·)`: collapse each whitespace run to one space
(fuelled as above; `dropWhile` only shortens the list). -/
def collapse_ws_fuel : Nat → List Char → List Char
  | 0, l => l
  | _ + 1, [] => []
  | fuel + 1, c :: rest =>
    if isPySpace c then ' ' :: collapse_ws_fuel fuel (rest.dropWhile isPySpace)
    else c :: collapse_ws_fuel fuel rest

/-- Whitespace-run collapse. -/
def collapse_ws (l : List Char) : List Char :=
  collapse_ws_fuel (l.length + 1) l

/-- Python `str.strip()`: drop whitespace from both ends. -/
def strip_ws (l : List Char) : List Char :=
  ((l.dropWhile isPySpace).reverse.dropWhile isPySpace).reverse

/-- Model of `differ.normalize` (differ.py lines 76-111): NFKD, lowercase, the three
regex removals, punctuation strip (`[^\w\s]` removed), whitespace collapse
and strip. -/
def normalize (text : String) : String :=
  let t1 := python_lower (nfkd text)
  let t2 := sub_feat_paren t1.data
  let t3 := sub_inline_feat t2
  let t4 := sub_paren t3
  let t5 := t4.filter fun c => isWordChar c || isPySpace c
  ⟨strip_ws (collapse_ws t5)⟩

/-! ## Transliteration (`differ.transliterate`, differ.py lines 31-73) -/

/-- The `_CYR_TO_LAT` table: `dict.get(ch, ch)` — mapped characters go to
their Latin digraphs, everything else is kept. -/
def cyr_to_lat (c : Char) : String :=
  match c with
  | 'а' => "a"
  | 'б' => "b"
  | 'в' => "v"
  | 'г' => "g"
  | 'д' => "d"
  | 'е' => "e"
  | 'ё' => "e"
  | 'ж' => "zh"
  | 'з' => "z"
  | 'и' => "i"
  | 'й' => "y"
  | 'к' => "k"
  | 'л' => "l"
  | 'м' => "m"
  | 'н' => "n"
  | 'о' => "o"
  | 'п' => "p"
  | 'р' => "r"
  | 'с' => "s"
  | 'т' => "t"
  | 'у' => "u"
  | 'ф' => "f"
  | 'х' => "kh"
  | 'ц' => "ts"
  | 'ч' => "ch"
  | 'ш' => "sh"
  | 'щ' => "shch"
  | 'ъ' => ""
  | 'ы' => "y"
  | 'ь' => ""
  | 'э' => "e"
  | 'ю' => "yu"
  | 'я' => "ya"
  | _ => String.singleton c

/-- Model of `differ.transliterate`: lower-case, then map each character through the
table and join. -/
def transliterate (text : String) : String :=
  String.join ((python_lower text).data.map cyr_to_lat)

/-! ## Fuzzy ratio (difflib `SequenceMatcher`, used by `_is_good_match`)

`SequenceMatcher(None, a, b).ratio()` with no junk; for the short artist
and title strings compared here `autojunk` never applies (it needs
`len(b) ≥ 200`).  The float division is modelled exactly in `ℚ`. -/

/-- State of the `find_longest_match` scan over `a`. -/
structure FLMState where
  besti : Nat
  bestj : Nat
  bestsize : Nat
  j2len : Nat → Nat

/-- Positions of `c` in `b`, ascending (difflib's `b2j`). -/
def b2j (b : List Char) (c : Char) : List Nat :=
  (List.range b.length).filter fun j => b.getD j ' ' == c

/-- One `i` iteration of difflib `find_longest_match`: walk the positions of
`a[i]` in `b`, extend diagonals (`k = j2len[j-1] + 1`, against the previous
row's dictionary) and record a strictly longer block as the new best. -/
def flm_step (a b : List Char) (st : FLMState) (i : Nat) : FLMState :=
  let inner := (b2j b (a.getD i ' ')).foldl
    (fun (p : (Nat → Nat) × Nat × Nat × Nat) j =>
      let k := (if j = 0 then 0 else st.j2len (j - 1)) + 1
      let newd := fun x => if x = j then k else p.1 x
      if p.2.2.2 < k then (newd, i + 1 - k, j + 1 - k, k)
      else (newd, p.2.1, p.2.2.1, p.2.2.2))
    ((fun _ => 0), st.besti, st.bestj, st.bestsize)
  { besti := inner.2.1, bestj := inner.2.2.1, bestsize := inner.2.2.2, j2len := inner.1 }

/-- difflib `find_longest_match` over the full ranges
(`alo = blo = 0`, `ahi = len a`, `bhi = len b`); with an empty junk set the
trailing junk-extension loops are no-ops. -/
def find_longest_match (a b : List Char) : Nat × Nat × Nat :=
  let final := (List.range a.length).foldl (flm_step a b)
    { besti := 0, bestj := 0, bestsize := 0, j2len := fun _ => 0 }
  (final.besti, final.bestj, final.bestsize)

/-- Total size of the matching blocks (`sum of block sizes` in
`get_matching_blocks`), via the recursive split around the longest match.
`fuel` bounds the recursion depth; `a.length + 1` always suffices because
each split removes at least one element of `a`. -/
def matching_total_fuel : Nat → List Char → List Char → Nat
  | 0, _, _ => 0
  | fuel + 1, a, b =>
    let t := find_longest_match a b
    if t.2.2 = 0 then 0
    else
      matching_total_fuel fuel (a.take t.1) (b.take t.2.1) + t.2.2 +
      matching_total_fuel fuel (a.drop (t.1 + t.2.2)) (b.drop (t.2.1 + t.2.2))

/-- The `M` of difflib's `ratio`. -/
def matching_total (a b : List Char) : Nat :=
  matching_total_fuel (a.length + 1) a b

/-- Model of `SequenceMatcher(None, a, b).ratio() = 2·M / (len a + len b)`
(`1.0` when both are empty, per `_calculate_ratio`). -/
def sm_ratio (a b : String) : ℚ :=
  if a.data.length + b.data.length = 0 then 1
  else (2 * matching_total a.data b.data : ℚ) / ((a.data.length + b.data.length : Nat) : ℚ)

/-! ## The matcher (`SyncEngine._is_good_match`, engine.py lines 352-419) -/

/-- Python substring test `a in b`. -/
def py_substr (a b : List Char) : Bool :=
  (List.range (b.length + 1)).any fun i => a.isPrefixOf (b.drop i)

/-- The local `_contains` helper: `a == b or a in b or b in a`. -/
def py_contains (a b : String) : Bool :=
  a == b || py_substr a.data b.data || py_substr b.data a.data

/-- The constant `SyncEngine._FUZZY_THRESHOLD = 0.8`, as an exact rational. -/
def FUZZY_THRESHOLD : ℚ := 8 / 10

/-- The constant `SyncEngine._DURATION_TOLERANCE_MS = 1000`. -/
def DURATION_TOLERANCE_MS : Int := 1000

/-- Model of `SyncEngine._is_good_match`: tier 1 normalized containment, tier 2
transliterated containment (keeping a side that already passed tier 1),
tier 3 fuzzy threshold on both sides with the duration veto. -/
def is_good_match (query_artist query_title found_artist found_title : String)
    (query_duration_ms found_duration_ms : Option Int) : Bool :=
  let q_artist := normalize query_artist
  let q_title := normalize query_title
  let f_artist := normalize found_artist
  let f_title := normalize found_title
  let title_ok := py_contains q_title f_title
  let artist_ok := py_contains q_artist f_artist
  if title_ok && artist_ok then true
  else
    let qt_artist := transliterate q_artist
    let ft_artist := transliterate f_artist
    let qt_title := transliterate q_title
    let ft_title := transliterate f_title
    let t_artist_ok := artist_ok || py_contains qt_artist ft_artist
    let t_title_ok := title_ok || py_contains qt_title ft_title
    if t_artist_ok && t_title_ok then true
    else
      let fuzzy_artist := max (sm_ratio q_artist f_artist) (sm_ratio qt_artist ft_artist)
      let fuzzy_title := max (sm_ratio q_title f_title) (sm_ratio qt_title ft_title)
      if fuzzy_artist < FUZZY_THRESHOLD || fuzzy_title < FUZZY_THRESHOLD then false
      else
        match query_duration_ms, found_duration_ms with
        | some qd, some fd => !(decide (DURATION_TOLERANCE_MS < |qd - fd|))
        | _, _ => true

/-! Spec-side tier predicates (from the specification's wording), to be
compared with the decision structure of `is_good_match`. -/

/-- Spec tier 1: after `normalize`, both title and artist satisfy
"equal, or one contains the other". -/
def tier1_accepts (qa qt fa ft : String) : Bool :=
  py_contains (normalize qt) (normalize ft) && py_contains (normalize qa) (normalize fa)

/-- Spec tier 2: the containment test with transliteration available (a side
that already passed the plain-normalised containment stays accepted). -/
def tier2_accepts (qa qt fa ft : String) : Bool :=
  (py_contains (normalize qa) (normalize fa) ||
     py_contains (transliterate (normalize qa)) (transliterate (normalize fa))) &&
  (py_contains (normalize qt) (normalize ft) ||
     py_contains (transliterate (normalize qt)) (transliterate (normalize ft)))

/-- Spec tier 3 artist similarity: maximum ratio over the plain-normalised
and the transliterated forms. -/
def fuzzy_artist_score (qa fa : String) : ℚ :=
  max (sm_ratio (normalize qa) (normalize fa))
      (sm_ratio (transliterate (normalize qa)) (transliterate (normalize fa)))

/-- Spec tier 3 title similarity. -/
def fuzzy_title_score (qt ft : String) : ℚ :=
  max (sm_ratio (normalize qt) (normalize ft))
      (sm_ratio (transliterate (normalize qt)) (transliterate (normalize ft)))

/-- Spec duration gate: reject only when both durations are known and they
differ by more than the tolerance. -/
def duration_ok (qd fd : Option Int) : Bool :=
  match qd, fd with
  | some q, some f => !(decide (DURATION_TOLERANCE_MS < |q - f|))
  | _, _ => true

/-- The decision structure of `_is_good_match`, named tier by tier. -/
theorem is_good_match_shape (qa qt fa ft : String) (qd fd : Option Int) :
    is_good_match qa qt fa ft qd fd =
      (if tier1_accepts qa qt fa ft then true
       else if tier2_accepts qa qt fa ft then true
       else if fuzzy_artist_score qa fa < FUZZY_THRESHOLD ||
               fuzzy_title_score qt ft < FUZZY_THRESHOLD then false
       else duration_ok qd fd) := rfl

/-! ## Addition propagation and retry (`SyncEngine._propagate_additions`,
engine.py lines 421-552, and `SyncEngine._retry_unmatched`, lines 554-595)

The two service clients are abstracted by their pure `search_track`
functions; a `like_tracks` / `save_tracks` call with one id appends its
payload to the corresponding call log.  The per-track `try/except` is
modelled by the fallible `upsert_track_mapping`: on its error the track's
processing stops and `stats.errors` is bumped, exactly as the caught
exception does. -/

/-- The dataclass `differ.RemoteTrack`. -/
structure RemoteTrack where
  service : String
  remote_id : String
  artist : String
  title : String
  added_at : Option String := none
  duration_ms : Option Int := none
deriving DecidableEq, Repr

/-- The two remote services, abstracted by their search results. -/
structure Services where
  ym_search : String → String → Option RemoteTrack
  sp_search : String → String → Option RemoteTrack

/-- A row of the `unmatched` table. -/
structure UnmatchedRow where
  id : Nat
  source_service : String
  source_id : String
  artist : String
  title : String
  attempts : Nat
deriving DecidableEq, Repr

/-- The constant `_MAX_UNMATCHED_ATTEMPTS = 5` (engine.py line 25). -/
def MAX_UNMATCHED_ATTEMPTS : Nat := 5

/-- The state a sync cycle threads through propagation and retry: the
store tables, the service-call logs and the stats counters. -/
structure CycleState where
  mappings : MappingTable
  coll : List CollectionTrack
  unmatched : List UnmatchedRow
  next_unmatched_id : Nat
  ym_like_calls : List (List String)
  sp_like_calls : List (List String)
  ym_added : Nat
  sp_added : Nat
  unmatched_count : Nat
  retried_ok : Nat
  errors : Nat
deriving Repr

/-- Model of `Database.add_unmatched` (database.py lines 320-342): insert, or on
`(source_service, source_id)` conflict increment `attempts` (artist and
title are not refreshed). -/
def db_add_unmatched (st : CycleState) (service sid artist title : String) : CycleState :=
  if st.unmatched.any (fun u => u.source_service == service && u.source_id == sid) then
    { st with
      unmatched := st.unmatched.map fun u =>
        if u.source_service == service && u.source_id == sid then
          { u with attempts := u.attempts + 1 }
        else u }
  else
    { st with
      unmatched := st.unmatched ++
        [{ id := st.next_unmatched_id, source_service := service, source_id := sid,
           artist := artist, title := title, attempts := 1 }],
      next_unmatched_id := st.next_unmatched_id + 1 }

/-- Model of `Database.resolve_unmatched`: delete by `(source_service, source_id)`. -/
def db_resolve_unmatched (st : CycleState) (service sid : String) : CycleState :=
  { st with
    unmatched := st.unmatched.filter fun u =>
      !(u.source_service == service && u.source_id == sid) }

/-- One Spotify→Yandex track of `_propagate_additions` (engine.py lines
439-494), threading the `existing_ym_ids` set (a list with `contains`
membership). -/
def propagate_sp_track (env : Services) (sp_col ym_col : Nat) (now : String)
    (acc : CycleState × List String) (track : RemoteTrack) : CycleState × List String :=
  let st := acc.1
  let existing_ym := acc.2
  match upsert_track_mapping st.mappings track.artist track.title
      (some track.remote_id) none 1 now with
  | Except.error _ => ({ st with errors := st.errors + 1 }, existing_ym)
  | Except.ok (mt1, m1) =>
    let st1 := { st with
      mappings := mt1
      coll := add_track_to_collection st.coll sp_col m1.id none track.added_at now }
    match env.ym_search track.artist track.title with
    | some found =>
      if is_good_match track.artist track.title found.artist found.title
          track.duration_ms found.duration_ms then
        let already_liked := existing_ym.contains found.remote_id
        match upsert_track_mapping st1.mappings track.artist track.title
            (some track.remote_id) (some found.remote_id) 1 now with
        | Except.error _ => ({ st1 with errors := st1.errors + 1 }, existing_ym)
        | Except.ok (mt2, m2) =>
          let st2 := { st1 with mappings := mt2 }
          let st3 :=
            if already_liked then st2
            else { st2 with
              ym_like_calls := st2.ym_like_calls ++ [[found.remote_id]]
              ym_added := st2.ym_added + 1 }
          let st4 := { st3 with
            coll := add_track_to_collection st3.coll ym_col m2.id none found.added_at now }
          (st4, existing_ym ++ [found.remote_id])
      else
        let st2 := db_add_unmatched st1 "spotify" track.remote_id track.artist track.title
        ({ st2 with unmatched_count := st2.unmatched_count + 1 }, existing_ym)
    | none =>
      let st2 := db_add_unmatched st1 "spotify" track.remote_id track.artist track.title
      ({ st2 with unmatched_count := st2.unmatched_count + 1 }, existing_ym)

/-- One Yandex→Spotify track of `_propagate_additions` (engine.py lines
497-552), threading `existing_sp_ids`. -/
def propagate_ym_track (env : Services) (sp_col ym_col : Nat) (now : String)
    (acc : CycleState × List String) (track : RemoteTrack) : CycleState × List String :=
  let st := acc.1
  let existing_sp := acc.2
  match upsert_track_mapping st.mappings track.artist track.title
      none (some track.remote_id) 1 now with
  | Except.error _ => ({ st with errors := st.errors + 1 }, existing_sp)
  | Except.ok (mt1, m1) =>
    let st1 := { st with
      mappings := mt1
      coll := add_track_to_collection st.coll ym_col m1.id none track.added_at now }
    match env.sp_search track.artist track.title with
    | some found =>
      if is_good_match track.artist track.title found.artist found.title
          track.duration_ms found.duration_ms then
        let already_saved := existing_sp.contains found.remote_id
        match upsert_track_mapping st1.mappings track.artist track.title
            (some found.remote_id) (some track.remote_id) 1 now with
        | Except.error _ => ({ st1 with errors := st1.errors + 1 }, existing_sp)
        | Except.ok (mt2, m2) =>
          let st2 := { st1 with mappings := mt2 }
          let st3 :=
            if already_saved then st2
            else { st2 with
              sp_like_calls := st2.sp_like_calls ++ [[found.remote_id]]
              sp_added := st2.sp_added + 1 }
          let st4 := { st3 with
            coll := add_track_to_collection st3.coll sp_col m2.id none found.added_at now }
          (st4, existing_sp ++ [found.remote_id])
      else
        let st2 := db_add_unmatched st1 "yandex" track.remote_id track.artist track.title
        ({ st2 with unmatched_count := st2.unmatched_count + 1 }, existing_sp)
    | none =>
      let st2 := db_add_unmatched st1 "yandex" track.remote_id track.artist track.title
      ({ st2 with unmatched_count := st2.unmatched_count + 1 }, existing_sp)

/-- Model of `SyncEngine._propagate_additions`: the Spotify→Yandex loop then the
Yandex→Spotify loop, each threading its own existing-ids set in-loop. -/
def propagate_additions (env : Services) (sp_col ym_col : Nat) (now : String)
    (st : CycleState) (unmatched_sp unmatched_ym : List RemoteTrack)
    (existing_sp_ids existing_ym_ids : List String) : CycleState :=
  let r1 := unmatched_sp.foldl (propagate_sp_track env sp_col ym_col now) (st, existing_ym_ids)
  let r2 := unmatched_ym.foldl (propagate_ym_track env sp_col ym_col now) (r1.1, existing_sp_ids)
  r2.1

/-- One Spotify-side row of `_retry_unmatched` (engine.py lines 561-595):
skip at `attempts ≥ 5`; search on Yandex; on a good match (no durations
passed) upsert, call `like_tracks([found.remote_id])` — with no
existing-ids check — add membership and delete the row; on a miss bump the
attempt counter through `add_unmatched`. -/
def retry_row_sp (env : Services) (ym_col : Nat) (now : String)
    (st : CycleState) (um : UnmatchedRow) : CycleState :=
  if MAX_UNMATCHED_ATTEMPTS ≤ um.attempts then st
  else
    match env.ym_search um.artist um.title with
    | some found =>
      if is_good_match um.artist um.title found.artist found.title none none then
        match upsert_track_mapping st.mappings um.artist um.title
            (some um.source_id) (some found.remote_id) 1 now with
        | Except.error _ => { st with errors := st.errors + 1 }
        | Except.ok (mt, m) =>
          let st1 := { st with
            mappings := mt
            ym_like_calls := st.ym_like_calls ++ [[found.remote_id]] }
          let st2 := { st1 with
            coll := add_track_to_collection st1.coll ym_col m.id none none now }
          let st3 := db_resolve_unmatched st2 "spotify" um.source_id
          { st3 with retried_ok := st3.retried_ok + 1 }
      else
        db_add_unmatched st "spotify" um.source_id um.artist um.title
    | none => db_add_unmatched st "spotify" um.source_id um.artist um.title

/-- One Yandex-side row of `_retry_unmatched` (symmetric). -/
def retry_row_ym (env : Services) (sp_col : Nat) (now : String)
    (st : CycleState) (um : UnmatchedRow) : CycleState :=
  if MAX_UNMATCHED_ATTEMPTS ≤ um.attempts then st
  else
    match env.sp_search um.artist um.title with
    | some found =>
      if is_good_match um.artist um.title found.artist found.title none none then
        match upsert_track_mapping st.mappings um.artist um.title
            (some found.remote_id) (some um.source_id) 1 now with
        | Except.error _ => { st with errors := st.errors + 1 }
        | Except.ok (mt, m) =>
          let st1 := { st with
            mappings := mt
            sp_like_calls := st.sp_like_calls ++ [[found.remote_id]] }
          let st2 := { st1 with
            coll := add_track_to_collection st1.coll sp_col m.id none none now }
          let st3 := db_resolve_unmatched st2 "yandex" um.source_id
          { st3 with retried_ok := st3.retried_ok + 1 }
      else
        db_add_unmatched st "yandex" um.source_id um.artist um.title
    | none => db_add_unmatched st "yandex" um.source_id um.artist um.title

/-- Model of `SyncEngine._retry_unmatched`: for each side, snapshot
`list_unmatched(source_service)` (rows ordered by id, including rows added
earlier in this same cycle) and process it. -/
def retry_unmatched (env : Services) (sp_col ym_col : Nat) (now : String)
    (st : CycleState) : CycleState :=
  let sp_list := st.unmatched.filter fun u => u.source_service == "spotify"
  let st1 := sp_list.foldl (retry_row_sp env ym_col now) st
  let ym_list := st1.unmatched.filter fun u => u.source_service == "yandex"
  ym_list.foldl (retry_row_ym env sp_col now) st1

/-! ## Helper lemmas -/

theorem batches_length_le : ∀ (n : Nat) (l : List String), ∀ b ∈ batches n l, b.length ≤ n
  | _, [], b, hb => by simp [batches] at hb
  | 0, _ :: _, b, hb => by simp [batches] at hb
  | n + 1, x :: xs, b, hb => by
    rw [batches] at hb
    rcases List.mem_cons.mp hb with h | h
    · subst h
      simp [List.length_take]
    · exact batches_length_le (n + 1) (xs.drop n) b h
termination_by n l => l.length
decreasing_by
  simp only [List.length_cons, List.length_drop]
  omega

theorem batches_flatten : ∀ (n : Nat) (l : List String), (batches (n + 1) l).flatten = l
  | _, [] => by simp [batches]
  | n, x :: xs => by
    rw [batches, List.flatten_cons]
    rw [batches_flatten n (xs.drop n)]
    have hdrop : (x :: xs).drop (n + 1) = xs.drop n := rfl
    rw [← hdrop]
    exact List.take_append_drop (n + 1) (x :: xs)
termination_by n l => l.length
decreasing_by
  simp only [List.length_cons, List.length_drop]
  omega

/-! ## Claims -/

/-- C1: single-flight.  If the engine's lock is held (a `run_sync` call is
in flight), any further `run_sync` call fails immediately with the
"already in progress" error and does not start a second cycle; from an
unlocked engine, the first call enters `syncing` and a second concurrent
call against the resulting state is rejected — exactly one execution. -/
theorem run_sync_single_flight :
    (∀ e : Engine, e.locked = true →
      run_sync_enter e = Except.error "Sync already in progress") ∧
    (∀ e : Engine, e.locked = false →
      run_sync_enter e = Except.ok { state := SyncState.syncing, locked := true } ∧
      run_sync_enter { state := SyncState.syncing, locked := true } =
        Except.error "Sync already in progress") := by
  constructor
  · intro e h
    simp [run_sync_enter, h]
  · intro e h
    exact ⟨by simp [run_sync_enter, h], by simp [run_sync_enter]⟩

/-- Witness for C1 at a concrete idle engine. -/
theorem run_sync_single_flight_witness :
    run_sync_enter { state := SyncState.idle, locked := false } =
      Except.ok { state := SyncState.syncing, locked := true } ∧
    run_sync_enter { state := SyncState.syncing, locked := true } =
      Except.error "Sync already in progress" :=
  run_sync_single_flight.2 { state := SyncState.idle, locked := false } rfl

/-- C2: the effective mode of `run_sync(mode_override?)`: `full` whenever no
successful run exists, regardless of override and configured default;
otherwise the override when given; otherwise the configured default. -/
theorem effective_mode_decision :
    (∀ (o : Option SyncMode) (c : SyncMode), effective_mode none o c = SyncMode.full) ∧
    (∀ (r : SyncRunRow) (m c : SyncMode), effective_mode (some r) (some m) c = m) ∧
    (∀ (r : SyncRunRow) (c : SyncMode), effective_mode (some r) none c = c) :=
  ⟨fun _ _ => rfl, fun _ _ _ => rfl, fun _ _ => rfl⟩

/-- C5 counterexample input: 101 distinct track ids. -/
def ids101 : List String := (List.range 101).map fun n => toString n

/-- C5 counterexample: client B's `like_tracks` on a 101-id list issues a
single request carrying all 101 ids — more than the claimed batch bound of
100. -/
theorem like_tracks_not_batched_at_100 :
    like_tracks ids101 = [ids101] ∧ ids101.length = 101 := by
  constructor
  · simp [like_tracks, ids101]
  · rfl

/-- C5 (amended): client A's write operations (`save_tracks`,
`remove_tracks`) batch at 50 ids per request and cover the input exactly;
client B's write operations (`like_tracks`, `unlike_tracks`) issue the whole
id list as one single request (no batching; only its liked-tracks *fetch*
batches at 100). -/
theorem client_write_batching :
    (∀ ids : List String,
      (∀ b ∈ save_tracks ids, b.length ≤ 50) ∧ (save_tracks ids).flatten = ids ∧
      (∀ b ∈ remove_tracks ids, b.length ≤ 50) ∧ (remove_tracks ids).flatten = ids) ∧
    (∀ ids : List String, ids ≠ [] → like_tracks ids = [ids] ∧ unlike_tracks ids = [ids]) ∧
    like_tracks [] = [] ∧ unlike_tracks [] = [] := by
  refine ⟨fun ids => ⟨?_, ?_, ?_, ?_⟩, fun ids h => ⟨?_, ?_⟩, rfl, rfl⟩
  · exact batches_length_le 50 ids
  · exact batches_flatten 49 ids
  · exact batches_length_le 50 ids
  · exact batches_flatten 49 ids
  · simp [like_tracks, h]
  · simp [unlike_tracks, h]

/-- Witness for C5 (amended) at a concrete 3-id list. -/
theorem client_write_batching_witness :
    ((∀ b ∈ save_tracks ["a", "b", "c"], b.length ≤ 50) ∧
      (save_tracks ["a", "b", "c"]).flatten = ["a", "b", "c"] ∧
      (∀ b ∈ remove_tracks ["a", "b", "c"], b.length ≤ 50) ∧
      (remove_tracks ["a", "b", "c"]).flatten = ["a", "b", "c"]) ∧
    (like_tracks ["a", "b", "c"] = [["a", "b", "c"]] ∧
      unlike_tracks ["a", "b", "c"] = [["a", "b", "c"]]) :=
  ⟨client_write_batching.1 ["a", "b", "c"],
   client_write_batching.2.1 ["a", "b", "c"] (by decide)⟩

/-- C9: re-adding a `(collection, mapping)` row that already exists updates
`position` and `synced_at` and clears `removed_at`, but preserves the row's
original `added_at`; the `added_at` argument is ignored on the conflict
path (the result does not depend on it). -/
theorem add_track_conflict_preserves_added_at
    (rows : List CollectionTrack) (cid tid : Nat) (pos : Option Nat)
    (a1 a2 : Option String) (now : String) (r0 : CollectionTrack)
    (h0 : r0 ∈ rows) (hk : ct_key cid tid r0 = true) :
    ({ r0 with position := pos, synced_at := some now, removed_at := none } ∈
        add_track_to_collection rows cid tid pos a1 now) ∧
    add_track_to_collection rows cid tid pos a1 now =
      add_track_to_collection rows cid tid pos a2 now := by
  have hany : rows.any (ct_key cid tid) = true := List.any_eq_true.mpr ⟨r0, h0, hk⟩
  constructor
  · unfold add_track_to_collection
    rw [if_pos hany]
    exact List.mem_map.mpr ⟨r0, h0, by simp [hk]⟩
  · simp [add_track_to_collection, hany]

/-- A concrete soft-removed membership row. -/
def ct_example : CollectionTrack :=
  { collection_id := 1, track_mapping_id := 2, position := some 0,
    added_at := some "2024-01-01", synced_at := some "2024-01-02",
    removed_at := some "2024-01-03" }

/-- Witness for C9: re-adding `ct_example` keeps `added_at = "2024-01-01"`,
clears `removed_at`, and two different `added_at` arguments give the same
result. -/
theorem add_track_conflict_preserves_added_at_witness :
    ({ ct_example with position := some 5, synced_at := some "t9", removed_at := none } ∈
        add_track_to_collection [ct_example] 1 2 (some 5) (some "2025-05-05") "t9") ∧
    add_track_to_collection [ct_example] 1 2 (some 5) (some "2025-05-05") "t9" =
      add_track_to_collection [ct_example] 1 2 (some 5) (some "2026-06-06") "t9" :=
  add_track_conflict_preserves_added_at [ct_example] 1 2 (some 5)
    (some "2025-05-05") (some "2026-06-06") "t9" ct_example (by simp) (by decide)

/-- C6: on an exception escaping the cycle body, `run_sync` finishes the
open SyncRun row as `failed` with the error message, sets the engine state
to `error`, and re-raises; and a scheduler iteration whose `run_sync`
raises still yields a non-halting result (the loop logs and continues —
only the stop event halts it). -/
theorem sync_failure_path (e : Engine) (st : RunStore) (mode msg now : String)
    (hu : e.locked = false) :
    ((run_sync e st mode (Except.error msg) now).1.state = SyncState.error ∧
     (run_sync e st mode (Except.error msg) now).2.2 = Except.error msg ∧
     ({ id := st.next_run_id, started_at := now, finished_at := some now,
        direction := "bidirectional", mode := mode, status := "failed",
        stats_json := none, error_message := some msg : SyncRunRow } ∈
       (run_sync e st mode (Except.error msg) now).2.1.runs)) ∧
    (∀ (s : SchedState), s.stop_set = false → s.paused = false →
      (loop_iteration s [] false).2 =
        IterResult.synced (s.trigger_mode.getD s.default_mode) false) := by
  constructor
  · refine ⟨?_, ?_, ?_⟩
    · simp [run_sync, do_sync_wrap, hu]
    · simp [run_sync, do_sync_wrap, hu]
    · simp only [run_sync, hu, Bool.false_eq_true, if_false, do_sync_wrap,
        start_sync_run, finish_sync_run]
      refine List.mem_map.mpr ?_
      refine ⟨{ id := st.next_run_id, started_at := now, finished_at := none,
                direction := "bidirectional", mode := mode, status := "running",
                stats_json := none, error_message := none }, ?_, ?_⟩
      · simp
      · simp
  · intro s h1 h2
    by_cases hf : s.first_run <;>
      simp [loop_iteration, wait_state, hf, h1, h2]

/-- Witness for C6 at a concrete unlocked engine and empty run store. -/
theorem sync_failure_path_witness :
    (((run_sync { state := SyncState.idle, locked := false } { runs := [], next_run_id := 1 }
        "full" (Except.error "boom") "t0").1.state = SyncState.error ∧
      (run_sync { state := SyncState.idle, locked := false } { runs := [], next_run_id := 1 }
        "full" (Except.error "boom") "t0").2.2 = Except.error "boom" ∧
      ({ id := 1, started_at := "t0", finished_at := some "t0",
         direction := "bidirectional", mode := "full", status := "failed",
         stats_json := none, error_message := some "boom" : SyncRunRow } ∈
        (run_sync { state := SyncState.idle, locked := false } { runs := [], next_run_id := 1 }
          "full" (Except.error "boom") "t0").2.1.runs)) ∧
     (∀ (s : SchedState), s.stop_set = false → s.paused = false →
       (loop_iteration s [] false).2 =
         IterResult.synced (s.trigger_mode.getD s.default_mode) false)) :=
  sync_failure_path { state := SyncState.idle, locked := false }
    { runs := [], next_run_id := 1 } "full" "boom" "t0" rfl

/-- A scheduler in steady state: running, not paused, no pending trigger,
default mode `incremental`. -/
def sched_running : SchedState :=
  { paused := false, stop_set := false, trigger_set := false, trigger_mode := none,
    first_run := false, default_mode := SyncMode.incremental }

/-- C7 counterexample: `pause`, then `trigger_now(full)` while paused — the
paused iteration skips — then `resume`; the next interval-expiry iteration
runs with the discarded trigger's mode override `full` instead of the
default `incremental`: the trigger's mode override was retained, not
discarded. -/
theorem paused_trigger_mode_leak :
    (loop_iteration sched_running
        [SchedOp.pause, SchedOp.trigger_now (some SyncMode.full)] true).2 =
      IterResult.skipped ∧
    (loop_iteration (loop_iteration sched_running
        [SchedOp.pause, SchedOp.trigger_now (some SyncMode.full)] true).1
        [SchedOp.resume] true).2 =
      IterResult.synced SyncMode.full true ∧
    sched_running.default_mode = SyncMode.incremental := by
  refine ⟨rfl, rfl, rfl⟩

/-- C7 (amended): while paused the loop initiates no sync (the iteration
just skips, leaving the scheduler fields otherwise unchanged), and the
trigger *event* is discarded, not queued — every non-first iteration clears
it before waiting, so resuming does not replay the paused-time trigger.
However the *mode override* carried in `_trigger_mode` is not cleared on
the paused path and is applied to the next cycle that actually runs. -/
theorem paused_discards_trigger_event_not_mode :
    (∀ (s : SchedState) (ops : List SchedOp) (ok : Bool),
      ({ ops.foldl apply_op (wait_state s) with first_run := false } : SchedState).stop_set
          = false →
      ({ ops.foldl apply_op (wait_state s) with first_run := false } : SchedState).paused
          = true →
      loop_iteration s ops ok =
        ({ ops.foldl apply_op (wait_state s) with first_run := false }, IterResult.skipped)) ∧
    (∀ s : SchedState, s.first_run = false → (wait_state s).trigger_set = false) ∧
    (∀ (s : SchedState) (ok : Bool), s.stop_set = false → s.paused = false →
      (loop_iteration s [] ok).2 =
        IterResult.synced (s.trigger_mode.getD s.default_mode) ok) := by
  refine ⟨?_, ?_, ?_⟩
  · intro s ops ok h1 h2
    simp only [SchedState.stop_set] at h1
    simp only [SchedState.paused] at h2
    simp [loop_iteration, h1, h2]
  · intro s h
    simp [wait_state, h]
  · intro s ok h1 h2
    by_cases hf : s.first_run <;>
      simp [loop_iteration, wait_state, hf, h1, h2]

/-- Witness for C7 (amended): a paused iteration with a trigger skips; the
trigger event is cleared before the next wait; an unpaused steady-state
iteration runs with the stored override. -/
theorem paused_discards_trigger_event_not_mode_witness :
    (loop_iteration { sched_running with paused := true }
        [SchedOp.trigger_now (some SyncMode.full)] true =
      ({ sched_running with
          paused := true
          trigger_set := true
          trigger_mode := some SyncMode.full }, IterResult.skipped)) ∧
    (wait_state { sched_running with trigger_set := true }).trigger_set = false ∧
    (loop_iteration { sched_running with trigger_mode := some SyncMode.full } [] true).2 =
      IterResult.synced SyncMode.full true := by
  refine ⟨?_, ?_, ?_⟩
  · exact paused_discards_trigger_event_not_mode.1
      { sched_running with paused := true }
      [SchedOp.trigger_now (some SyncMode.full)] true rfl rfl
  · exact paused_discards_trigger_event_not_mode.2.1
      { sched_running with trigger_set := true } rfl
  · exact paused_discards_trigger_event_not_mode.2.2
      { sched_running with trigger_mode := some SyncMode.full } true rfl rfl

/-- C8 counterexample: `normalize` is not idempotent.  On
`"a -feat- b"` the punctuation strip turns the text into `"a feat b"`,
which a second application reduces to `"a"` via the inline-feat rule: the
first pass manufactures an inline `feat` clause that only the second pass
removes. -/
theorem normalize_not_idempotent_at_input :
    normalize (normalize "a -feat- b") ≠ normalize "a -feat- b" := by
  decide

/-- C8 (amended): `normalize` is total (it is a function on all strings) but
it is *not* idempotent: stripping punctuation can expose an inline
`feat`/`ft`/`featuring` clause that only a second application removes, so
`normalize (normalize x) ≠ normalize x` for some inputs, witnessed by
`"a -feat- b" ↦ "a feat b" ↦ "a"`. -/
theorem normalize_total_but_not_idempotent :
    normalize "a -feat- b" = "a feat b" ∧
    normalize "a feat b" = "a" ∧
    ∃ x : String, normalize (normalize x) ≠ normalize x := by
  refine ⟨by decide, by decide, ⟨"a -feat- b", by decide⟩⟩

/-- C3: `is_good_match` is a strict three-tier decision.  Tier 1
(normalised containment of both artist and title) accepts immediately, for
any durations — the duration check is not applied.  Tier 2 (the containment
test with transliteration) likewise accepts for any durations.  When tiers
1 and 2 both reject, the result is accepting exactly when both similarity
scores (each the maximum over the plain-normalised and transliterated
forms) are ≥ 0.80 and the duration gate passes — i.e. it rejects whenever
both durations are known and differ by more than 1000 ms. -/
theorem is_good_match_tier_structure :
    (∀ (qa qt fa ft : String) (qd fd : Option Int),
      tier1_accepts qa qt fa ft = true → is_good_match qa qt fa ft qd fd = true) ∧
    (∀ (qa qt fa ft : String) (qd fd : Option Int),
      tier2_accepts qa qt fa ft = true → is_good_match qa qt fa ft qd fd = true) ∧
    (∀ (qa qt fa ft : String) (qd fd : Option Int),
      tier1_accepts qa qt fa ft = false → tier2_accepts qa qt fa ft = false →
      (is_good_match qa qt fa ft qd fd = true ↔
        (FUZZY_THRESHOLD ≤ fuzzy_artist_score qa fa ∧
         FUZZY_THRESHOLD ≤ fuzzy_title_score qt ft ∧
         duration_ok qd fd = true))) := by
  refine ⟨?_, ?_, ?_⟩
  · intro qa qt fa ft qd fd h
    rw [is_good_match_shape, h]
    simp
  · intro qa qt fa ft qd fd h
    rw [is_good_match_shape, h]
    by_cases h1 : tier1_accepts qa qt fa ft <;> simp [h1]
  · intro qa qt fa ft qd fd h1 h2
    rw [is_good_match_shape, h1, h2]
    by_cases ha : fuzzy_artist_score qa fa < FUZZY_THRESHOLD
    · simp [ha, not_le.mpr ha]
    · by_cases ht : fuzzy_title_score qt ft < FUZZY_THRESHOLD
      · simp [ha, ht, not_le.mpr ht]
      · simp [ha, ht, not_lt.mp ha, not_lt.mp ht]

/-- Witness for C3: a tier-1 match is accepted both with wildly different
durations (200 s apart — the duration check is skipped) and with no
durations at all. -/
theorem is_good_match_tier_structure_witness :
    is_good_match "Radiohead" "Creep" "radiohead" "creep" (some 100000) (some 300000) = true ∧
    is_good_match "Radiohead" "Creep" "radiohead" "creep" none none = true :=
  ⟨is_good_match_tier_structure.1 "Radiohead" "Creep" "radiohead" "creep"
      (some 100000) (some 300000) (by decide),
   is_good_match_tier_structure.1 "Radiohead" "Creep" "radiohead" "creep"
      none none (by decide)⟩

theorem coalesce_isSome (a : Option String) {b : Option String}
    (h : b.isSome = true) : (coalesce a b).isSome = true := by
  cases a <;> simp [coalesce, h]

/-- C10: `upsert_track_mapping` never regresses a remote id to null and
never rewrites `created_at`.  (1) Every pre-existing row survives (same id),
keeps its `created_at`, and keeps each remote id non-null if it was
non-null (COALESCE semantics).  (2) On a `spotify_id` conflict with a null
`yandex_id` argument, the returned row keeps the stored `spotify_id`,
`yandex_id` and `created_at` unchanged.  (3) Symmetrically for a
`yandex_id` conflict with a null `spotify_id` argument. -/
theorem upsert_never_nulls_ids (t : MappingTable) (artist title : String)
    (sid yid : Option String) (conf : ℚ) (now : String) (t2 : MappingTable)
    (m : TrackMapping)
    (hids : (t.rows.map TrackMapping.id).Nodup)
    (hok : upsert_track_mapping t artist title sid yid conf now = Except.ok (t2, m)) :
    (∀ r ∈ t.rows, ∃ r2 ∈ t2.rows, r2.id = r.id ∧ r2.created_at = r.created_at ∧
        (r.spotify_id.isSome = true → r2.spotify_id.isSome = true) ∧
        (r.yandex_id.isSome = true → r2.yandex_id.isSome = true)) ∧
    (∀ (s : String) (r0 : TrackMapping), sid = some s → yid = none →
        t.rows.find? (fun r => r.spotify_id == some s) = some r0 →
        m.spotify_id = r0.spotify_id ∧ m.yandex_id = r0.yandex_id ∧
        m.created_at = r0.created_at) ∧
    (∀ (y : String) (r0 : TrackMapping), sid = none → yid = some y →
        t.rows.find? (fun r => r.yandex_id == some y) = some r0 →
        m.yandex_id = r0.yandex_id ∧ m.spotify_id = r0.spotify_id ∧
        m.created_at = r0.created_at) := by
  have hinj := List.inj_on_of_nodup_map hids
  unfold upsert_track_mapping at hok
  split at hok
  · rename_i r0s hfs
    dsimp only at hok
    split at hok
    · exact absurd hok (by simp)
    · simp only [Except.ok.injEq, Prod.mk.injEq] at hok
      obtain ⟨ht2, hm⟩ := hok
      have hsid : ∃ s0, sid = some s0 := by
        cases sid with
        | none => simp at hfs
        | some s0 => exact ⟨s0, rfl⟩
      obtain ⟨s0, rfl⟩ := hsid
      have hfind0 : t.rows.find? (fun r => r.spotify_id == some s0) = some r0s := hfs
      have hr0mem : r0s ∈ t.rows := List.mem_of_find?_eq_some hfind0
      refine ⟨?_, ?_, ?_⟩
      · intro r hr
        subst ht2
        by_cases hid : (r.id == r0s.id) = true
        · have : r = r0s := hinj hr hr0mem (by simpa using hid)
          subst this
          refine ⟨update_on_spotify_conflict r yid artist title conf now,
            List.mem_map.mpr ⟨r, hr, by simp [hid]⟩, rfl, rfl, ?_, ?_⟩
          · intro h
            simpa [update_on_spotify_conflict] using h
          · intro h
            simpa [update_on_spotify_conflict] using coalesce_isSome yid h
        · exact ⟨r, List.mem_map.mpr ⟨r, hr, by simp [hid]⟩, rfl, rfl, fun h => h, fun h => h⟩
      · intro s r0 hs hy hfind
        cases hs
        rw [hfind0] at hfind
        injection hfind with hfind
        subst hfind hm hy
        simp [update_on_spotify_conflict, coalesce]
      · intro y r0 hs hy hfind
        simp [hs] at hfs
  · rename_i hfs
    split at hok
    · rename_i r0y hfy
      dsimp only at hok
      split at hok
      · exact absurd hok (by simp)
      · simp only [Except.ok.injEq, Prod.mk.injEq] at hok
        obtain ⟨ht2, hm⟩ := hok
        have hyid : ∃ y0, yid = some y0 := by
          cases yid with
          | none => simp at hfy
          | some y0 => exact ⟨y0, rfl⟩
        obtain ⟨y0, rfl⟩ := hyid
        have hfind0 : t.rows.find? (fun r => r.yandex_id == some y0) = some r0y := hfy
        have hr0mem : r0y ∈ t.rows := List.mem_of_find?_eq_some hfind0
        refine ⟨?_, ?_, ?_⟩
        · intro r hr
          subst ht2
          by_cases hid : (r.id == r0y.id) = true
          · have : r = r0y := hinj hr hr0mem (by simpa using hid)
            subst this
            refine ⟨update_on_yandex_conflict r sid artist title conf now,
              List.mem_map.mpr ⟨r, hr, by simp [hid]⟩, rfl, rfl, ?_, ?_⟩
            · intro h
              simpa [update_on_yandex_conflict] using coalesce_isSome sid h
            · intro h
              simpa [update_on_yandex_conflict] using h
          · exact ⟨r, List.mem_map.mpr ⟨r, hr, by simp [hid]⟩, rfl, rfl, fun h => h, fun h => h⟩
        · intro s r0 hs hy hfind
          exact absurd hy (by simp)
        · intro y r0 hs hy hfind
          cases hy
          rw [hfind0] at hfind
          injection hfind with hfind
          subst hfind hm hs
          simp [update_on_yandex_conflict, coalesce]
    · rename_i hfy
      split at hok
      · exact absurd hok (by simp)
      · simp only [Except.ok.injEq, Prod.mk.injEq] at hok
        obtain ⟨ht2, hm⟩ := hok
        refine ⟨?_, ?_, ?_⟩
        · intro r hr
          subst ht2
          exact ⟨r, List.mem_append_left _ hr, rfl, rfl, fun h => h, fun h => h⟩
        · intro s r0 hs hy hfind
          subst hs
          simp only [Option.some_bind] at hfs
          rw [hfs] at hfind
          exact absurd hfind (by simp)
        · intro y r0 hs hy hfind
          subst hy
          simp only [Option.some_bind] at hfy
          rw [hfy] at hfind
          exact absurd hfind (by simp)

/-- A concrete mapping row with both remote ids set. -/
def tm_example : TrackMapping :=
  { id := 1, spotify_id := some "s1", yandex_id := some "y1",
    artist := "Art", title := "Song", match_confidence := 1,
    created_at := "c0", updated_at := "c0" }

/-- The row `tm_example` after a spotify-conflict upsert that passes
`yandex_id = None`: artist/title/`updated_at` refreshed, ids and
`created_at` untouched. -/
def tm_example_after : TrackMapping :=
  { tm_example with artist := "Art2", title := "Song2", updated_at := "t1" }

/-- Witness for C10: upserting `(spotify_id = s1, yandex_id = None)` against
a table holding `tm_example` hits the spotify-conflict path; the returned
row keeps `spotify_id = s1`, `yandex_id = y1` and `created_at = c0`, and the
surviving row keeps both ids non-null and its `created_at`. -/
theorem upsert_never_nulls_ids_witness :
    (∀ r ∈ ({ rows := [tm_example], next_id := 2 } : MappingTable).rows,
      ∃ r2 ∈ ({ rows := [tm_example_after], next_id := 2 } : MappingTable).rows,
        r2.id = r.id ∧ r2.created_at = r.created_at ∧
        (r.spotify_id.isSome = true → r2.spotify_id.isSome = true) ∧
        (r.yandex_id.isSome = true → r2.yandex_id.isSome = true)) ∧
    (∀ (s : String) (r0 : TrackMapping), (some "s1" : Option String) = some s →
        (none : Option String) = none →
        ({ rows := [tm_example], next_id := 2 } : MappingTable).rows.find?
            (fun r => r.spotify_id == some s) = some r0 →
        tm_example_after.spotify_id = r0.spotify_id ∧
        tm_example_after.yandex_id = r0.yandex_id ∧
        tm_example_after.created_at = r0.created_at) ∧
    (∀ (y : String) (r0 : TrackMapping), (some "s1" : Option String) = none →
        (none : Option String) = some y →
        ({ rows := [tm_example], next_id := 2 } : MappingTable).rows.find?
            (fun r => r.yandex_id == some y) = some r0 →
        tm_example_after.yandex_id = r0.yandex_id ∧
        tm_example_after.spotify_id = r0.spotify_id ∧
        tm_example_after.created_at = r0.created_at) :=
  upsert_never_nulls_ids { rows := [tm_example], next_id := 2 } "Art2" "Song2"
    (some "s1") none 1 "t1" { rows := [tm_example_after], next_id := 2 }
    tm_example_after (by decide) (by rfl)

/-- The track both retry searches of the C4 counterexample resolve to. -/
def c4_found : RemoteTrack :=
  { service := "yandex", remote_id := "y1", artist := "art a", title := "song" }

/-- Services for the C4 counterexample: Yandex search returns the same best
candidate for two similar queries. -/
def c4_env : Services :=
  { ym_search := fun a t =>
      if (a == "art a" || a == "art a x") && t == "song" then some c4_found else none,
    sp_search := fun _ _ => none }

/-- Two held-back unmatched Spotify rows whose retry searches both resolve
to `c4_found`. -/
def c4_state : CycleState :=
  { mappings := { rows := [], next_id := 1 },
    coll := [],
    unmatched := [
      { id := 1, source_service := "spotify", source_id := "s1",
        artist := "art a", title := "song", attempts := 1 },
      { id := 2, source_service := "spotify", source_id := "s2",
        artist := "art a x", title := "song", attempts := 1 }],
    next_unmatched_id := 3,
    ym_like_calls := [], sp_like_calls := [],
    ym_added := 0, sp_added := 0, unmatched_count := 0, retried_ok := 0, errors := 0 }

/-- C4 counterexample: within one cycle, the retry-of-unmatched phase—which
performs no existing-ids bookkeeping—likes the same remote id `y1` twice:
both unmatched rows search-resolve to the same track (both are accepted by
the matcher, the first by equality, the second by containment), and each
retry issues `like_tracks(["y1"])`. -/
theorem retry_unmatched_duplicate_like :
    (retry_unmatched c4_env 1 2 "t0" c4_state).ym_like_calls = [["y1"], ["y1"]] ∧
    List.count "y1" (retry_unmatched c4_env 1 2 "t0" c4_state).ym_like_calls.flatten = 2 := by
  constructor
  · rfl
  · rfl

theorem db_add_unmatched_like_calls (st : CycleState) (a b c d : String) :
    (db_add_unmatched st a b c d).ym_like_calls = st.ym_like_calls ∧
    (db_add_unmatched st a b c d).sp_like_calls = st.sp_like_calls := by
  unfold db_add_unmatched
  split <;> exact ⟨rfl, rfl⟩

/-- Effect of one Spotify→Yandex propagation step on the Yandex like log
and the existing-ids set: either both are unchanged, or one id is recorded
into the set — liked exactly when it was not already in the set.  The
Spotify like log is untouched. -/
theorem propagate_sp_track_likes (env : Services) (spc ymc : Nat) (now : String)
    (st : CycleState) (ex : List String) (track : RemoteTrack) :
    (((propagate_sp_track env spc ymc now (st, ex) track).1.ym_like_calls
          = st.ym_like_calls ∧
      (propagate_sp_track env spc ymc now (st, ex) track).2 = ex) ∨
     (∃ id, (propagate_sp_track env spc ymc now (st, ex) track).2 = ex ++ [id] ∧
       ((ex.contains id = true ∧
         (propagate_sp_track env spc ymc now (st, ex) track).1.ym_like_calls
            = st.ym_like_calls) ∨
        (ex.contains id = false ∧
         (propagate_sp_track env spc ymc now (st, ex) track).1.ym_like_calls
            = st.ym_like_calls ++ [[id]])))) ∧
    (propagate_sp_track env spc ymc now (st, ex) track).1.sp_like_calls
        = st.sp_like_calls := by
  unfold propagate_sp_track
  dsimp only
  split
  · exact ⟨Or.inl ⟨rfl, rfl⟩, rfl⟩
  · rename_i mt1 m1 hm1
    split
    · rename_i found hfound
      split
      · split
        · exact ⟨Or.inl ⟨rfl, rfl⟩, rfl⟩
        · rename_i mt2 m2 hm2
          by_cases hal : found.remote_id ∈ ex
          · have halc : ex.contains found.remote_id = true := List.elem_iff.mpr hal
            refine ⟨Or.inr ⟨found.remote_id, by simp [hal], Or.inl ⟨halc, by simp [hal]⟩⟩,
              by simp [hal]⟩
          · have halc : ex.contains found.remote_id = false := by
              rw [← Bool.not_eq_true]
              simpa [List.elem_iff] using hal
            refine ⟨Or.inr ⟨found.remote_id, by simp [hal], Or.inr ⟨halc, by simp [hal]⟩⟩,
              by simp [hal]⟩
      · have h := db_add_unmatched_like_calls
          ({ st with
              mappings := mt1
              coll := add_track_to_collection st.coll spc m1.id none track.added_at now })
          "spotify" track.remote_id track.artist track.title
        exact ⟨Or.inl ⟨h.1, rfl⟩, h.2⟩
    · have h := db_add_unmatched_like_calls
        ({ st with
            mappings := mt1
            coll := add_track_to_collection st.coll spc m1.id none track.added_at now })
        "spotify" track.remote_id track.artist track.title
      exact ⟨Or.inl ⟨h.1, rfl⟩, h.2⟩

/-- Effect of one Yandex→Spotify propagation step on the Spotify like log
and the existing-ids set (mirror of `propagate_sp_track_likes`); the Yandex
like log is untouched. -/
theorem propagate_ym_track_likes (env : Services) (spc ymc : Nat) (now : String)
    (st : CycleState) (ex : List String) (track : RemoteTrack) :
    (((propagate_ym_track env spc ymc now (st, ex) track).1.sp_like_calls
          = st.sp_like_calls ∧
      (propagate_ym_track env spc ymc now (st, ex) track).2 = ex) ∨
     (∃ id, (propagate_ym_track env spc ymc now (st, ex) track).2 = ex ++ [id] ∧
       ((ex.contains id = true ∧
         (propagate_ym_track env spc ymc now (st, ex) track).1.sp_like_calls
            = st.sp_like_calls) ∨
        (ex.contains id = false ∧
         (propagate_ym_track env spc ymc now (st, ex) track).1.sp_like_calls
            = st.sp_like_calls ++ [[id]])))) ∧
    (propagate_ym_track env spc ymc now (st, ex) track).1.ym_like_calls
        = st.ym_like_calls := by
  unfold propagate_ym_track
  dsimp only
  split
  · exact ⟨Or.inl ⟨rfl, rfl⟩, rfl⟩
  · rename_i mt1 m1 hm1
    split
    · rename_i found hfound
      split
      · split
        · exact ⟨Or.inl ⟨rfl, rfl⟩, rfl⟩
        · rename_i mt2 m2 hm2
          by_cases hal : found.remote_id ∈ ex
          · have halc : ex.contains found.remote_id = true := List.elem_iff.mpr hal
            refine ⟨Or.inr ⟨found.remote_id, by simp [hal], Or.inl ⟨halc, by simp [hal]⟩⟩,
              by simp [hal]⟩
          · have halc : ex.contains found.remote_id = false := by
              rw [← Bool.not_eq_true]
              simpa [List.elem_iff] using hal
            refine ⟨Or.inr ⟨found.remote_id, by simp [hal], Or.inr ⟨halc, by simp [hal]⟩⟩,
              by simp [hal]⟩
      · have h := db_add_unmatched_like_calls
          ({ st with
              mappings := mt1
              coll := add_track_to_collection st.coll ymc m1.id none track.added_at now })
          "yandex" track.remote_id track.artist track.title
        exact ⟨Or.inl ⟨h.2, rfl⟩, h.1⟩
    · have h := db_add_unmatched_like_calls
        ({ st with
            mappings := mt1
            coll := add_track_to_collection st.coll ymc m1.id none track.added_at now })
        "yandex" track.remote_id track.artist track.title
      exact ⟨Or.inl ⟨h.2, rfl⟩, h.1⟩

/-- Loop invariant of the Spotify→Yandex pass: the flattened Yandex like
log stays duplicate-free, every liked id is in the current existing set,
ids in the initial existing set `ex0` are never liked, and the Spotify like
log is untouched. -/
theorem propagate_sp_fold_inv (env : Services) (spc ymc : Nat) (now : String)
    (ex0 : List String) :
    ∀ (tracks : List RemoteTrack) (st : CycleState) (ex : List String),
      st.ym_like_calls.flatten.Nodup →
      (∀ x, x ∈ st.ym_like_calls.flatten → x ∈ ex) →
      (∀ x, x ∈ ex0 → x ∈ ex) →
      (∀ x, x ∈ ex0 → x ∉ st.ym_like_calls.flatten) →
      ((tracks.foldl (propagate_sp_track env spc ymc now)
          (st, ex)).1.ym_like_calls.flatten.Nodup ∧
       (∀ x, x ∈ ex0 →
         x ∉ (tracks.foldl (propagate_sp_track env spc ymc now)
            (st, ex)).1.ym_like_calls.flatten) ∧
       (tracks.foldl (propagate_sp_track env spc ymc now) (st, ex)).1.sp_like_calls
          = st.sp_like_calls) := by
  intro tracks
  induction tracks with
  | nil => exact fun st ex h1 h2 h3 h4 => ⟨h1, h4, rfl⟩
  | cons track rest ih =>
    intro st ex h1 h2 h3 h4
    simp only [List.foldl_cons]
    obtain ⟨hshape, hsp⟩ := propagate_sp_track_likes env spc ymc now st ex track
    set r := propagate_sp_track env spc ymc now (st, ex) track with hr
    have hpair : r = (r.1, r.2) := rfl
    rw [hpair]
    rcases hshape with ⟨hy, he⟩ | ⟨id, he, hcase⟩
    · have := ih r.1 r.2 (hy ▸ h1) (fun x hx => he ▸ h2 x (hy ▸ hx))
        (fun x hx => he ▸ h3 x hx) (fun x hx => hy ▸ h4 x hx)
      exact ⟨this.1, this.2.1, this.2.2.trans hsp⟩
    · rcases hcase with ⟨hin, hy⟩ | ⟨hout, hy⟩
      · have := ih r.1 r.2 (hy ▸ h1)
          (fun x hx => by rw [he]; exact List.mem_append_left _ (h2 x (hy ▸ hx)))
          (fun x hx => by rw [he]; exact List.mem_append_left _ (h3 x hx))
          (fun x hx => hy ▸ h4 x hx)
        exact ⟨this.1, this.2.1, this.2.2.trans hsp⟩
      · have hidnot : id ∉ ex := by
          intro hmem
          have hc : ex.contains id = true := List.elem_iff.mpr hmem
          rw [hout] at hc
          exact absurd hc (by simp)
        have hidnotin : id ∉ st.ym_like_calls.flatten := fun hcon => hidnot (h2 id hcon)
        have h1n : r.1.ym_like_calls.flatten.Nodup := by
          rw [hy, List.flatten_append]
          rw [List.nodup_append]
          refine ⟨h1, by simp, ?_⟩
          intro x hx
          simp only [List.flatten_cons, List.flatten_nil, List.append_nil,
            List.mem_singleton]
          intro hxid
          subst hxid
          exact hidnotin hx
        have h2n : ∀ x, x ∈ r.1.ym_like_calls.flatten → x ∈ r.2 := by
          intro x hx
          rw [hy, List.flatten_append] at hx
          rw [he]
          rcases List.mem_append.mp hx with hx | hx
          · exact List.mem_append_left _ (h2 x hx)
          · simp only [List.flatten_cons, List.flatten_nil, List.append_nil,
              List.mem_singleton] at hx
            subst hx
            simp
        have h3n : ∀ x, x ∈ ex0 → x ∈ r.2 := fun x hx => by
          rw [he]; exact List.mem_append_left _ (h3 x hx)
        have h4n : ∀ x, x ∈ ex0 → x ∉ r.1.ym_like_calls.flatten := by
          intro x hx
          rw [hy, List.flatten_append]
          intro hcon
          rcases List.mem_append.mp hcon with hc | hc
          · exact h4 x hx hc
          · simp only [List.flatten_cons, List.flatten_nil, List.append_nil,
              List.mem_singleton] at hc
            subst hc
            exact hidnot (h3 x hx)
        have := ih r.1 r.2 h1n h2n h3n h4n
        exact ⟨this.1, this.2.1, this.2.2.trans hsp⟩

/-- Loop invariant of the Yandex→Spotify pass (mirror of
`propagate_sp_fold_inv`); the Yandex like log is untouched. -/
theorem propagate_ym_fold_inv (env : Services) (spc ymc : Nat) (now : String)
    (ex0 : List String) :
    ∀ (tracks : List RemoteTrack) (st : CycleState) (ex : List String),
      st.sp_like_calls.flatten.Nodup →
      (∀ x, x ∈ st.sp_like_calls.flatten → x ∈ ex) →
      (∀ x, x ∈ ex0 → x ∈ ex) →
      (∀ x, x ∈ ex0 → x ∉ st.sp_like_calls.flatten) →
      ((tracks.foldl (propagate_ym_track env spc ymc now)
          (st, ex)).1.sp_like_calls.flatten.Nodup ∧
       (∀ x, x ∈ ex0 →
         x ∉ (tracks.foldl (propagate_ym_track env spc ymc now)
            (st, ex)).1.sp_like_calls.flatten) ∧
       (tracks.foldl (propagate_ym_track env spc ymc now) (st, ex)).1.ym_like_calls
          = st.ym_like_calls) := by
  intro tracks
  induction tracks with
  | nil => exact fun st ex h1 h2 h3 h4 => ⟨h1, h4, rfl⟩
  | cons track rest ih =>
    intro st ex h1 h2 h3 h4
    simp only [List.foldl_cons]
    obtain ⟨hshape, hym⟩ := propagate_ym_track_likes env spc ymc now st ex track
    set r := propagate_ym_track env spc ymc now (st, ex) track with hr
    have hpair : r = (r.1, r.2) := rfl
    rw [hpair]
    rcases hshape with ⟨hy, he⟩ | ⟨id, he, hcase⟩
    · have := ih r.1 r.2 (hy ▸ h1) (fun x hx => he ▸ h2 x (hy ▸ hx))
        (fun x hx => he ▸ h3 x hx) (fun x hx => hy ▸ h4 x hx)
      exact ⟨this.1, this.2.1, this.2.2.trans hym⟩
    · rcases hcase with ⟨hin, hy⟩ | ⟨hout, hy⟩
      · have := ih r.1 r.2 (hy ▸ h1)
          (fun x hx => by rw [he]; exact List.mem_append_left _ (h2 x (hy ▸ hx)))
          (fun x hx => by rw [he]; exact List.mem_append_left _ (h3 x hx))
          (fun x hx => hy ▸ h4 x hx)
        exact ⟨this.1, this.2.1, this.2.2.trans hym⟩
      · have hidnot : id ∉ ex := by
          intro hmem
          have hc : ex.contains id = true := List.elem_iff.mpr hmem
          rw [hout] at hc
          exact absurd hc (by simp)
        have hidnotin : id ∉ st.sp_like_calls.flatten := fun hcon => hidnot (h2 id hcon)
        have h1n : r.1.sp_like_calls.flatten.Nodup := by
          rw [hy, List.flatten_append]
          rw [List.nodup_append]
          refine ⟨h1, by simp, ?_⟩
          intro x hx
          simp only [List.flatten_cons, List.flatten_nil, List.append_nil,
            List.mem_singleton]
          intro hxid
          subst hxid
          exact hidnotin hx
        have h2n : ∀ x, x ∈ r.1.sp_like_calls.flatten → x ∈ r.2 := by
          intro x hx
          rw [hy, List.flatten_append] at hx
          rw [he]
          rcases List.mem_append.mp hx with hx | hx
          · exact List.mem_append_left _ (h2 x hx)
          · simp only [List.flatten_cons, List.flatten_nil, List.append_nil,
              List.mem_singleton] at hx
            subst hx
            simp
        have h3n : ∀ x, x ∈ ex0 → x ∈ r.2 := fun x hx => by
          rw [he]; exact List.mem_append_left _ (h3 x hx)
        have h4n : ∀ x, x ∈ ex0 → x ∉ r.1.sp_like_calls.flatten := by
          intro x hx
          rw [hy, List.flatten_append]
          intro hcon
          rcases List.mem_append.mp hcon with hc | hc
          · exact h4 x hx hc
          · simp only [List.flatten_cons, List.flatten_nil, List.append_nil,
              List.mem_singleton] at hc
            subst hc
            exact hidnot (h3 x hx)
        have := ih r.1 r.2 h1n h2n h3n h4n
        exact ⟨this.1, this.2.1, this.2.2.trans hym⟩

/-- C4 (amended): within a single `_propagate_additions` pass starting with
empty like logs, the engine never issues two `like` calls for the same
remote id on either side, and never issues a `like` for an id already in
that side's existing-ids set — the per-side set is updated in-loop.  (The
claim's extension to the retry-of-unmatched phase is false: retry performs
no existing-ids bookkeeping; see the counterexample.) -/
theorem propagate_additions_no_duplicate_like (env : Services) (spc ymc : Nat)
    (now : String) (st : CycleState) (tracks_sp tracks_ym : List RemoteTrack)
    (ex_sp ex_ym : List String)
    (hym0 : st.ym_like_calls = []) (hsp0 : st.sp_like_calls = []) :
    (propagate_additions env spc ymc now st tracks_sp tracks_ym
        ex_sp ex_ym).ym_like_calls.flatten.Nodup ∧
    (∀ x, x ∈ ex_ym →
      x ∉ (propagate_additions env spc ymc now st tracks_sp tracks_ym
          ex_sp ex_ym).ym_like_calls.flatten) ∧
    (propagate_additions env spc ymc now st tracks_sp tracks_ym
        ex_sp ex_ym).sp_like_calls.flatten.Nodup ∧
    (∀ x, x ∈ ex_sp →
      x ∉ (propagate_additions env spc ymc now st tracks_sp tracks_ym
          ex_sp ex_ym).sp_like_calls.flatten) := by
  unfold propagate_additions
  dsimp only
  have hsp := propagate_sp_fold_inv env spc ymc now ex_ym tracks_sp st ex_ym
    (by rw [hym0]; simp) (by rw [hym0]; simp) (fun x hx => hx)
    (by rw [hym0]; simp)
  set r1 := tracks_sp.foldl (propagate_sp_track env spc ymc now) (st, ex_ym) with hr1
  obtain ⟨hnd1, hex1, hsppres⟩ := hsp
  have hym := propagate_ym_fold_inv env spc ymc now ex_sp tracks_ym r1.1 ex_sp
    (by rw [hsppres, hsp0]; simp) (by rw [hsppres, hsp0]; simp) (fun x hx => hx)
    (by rw [hsppres, hsp0]; simp)
  set r2 := tracks_ym.foldl (propagate_ym_track env spc ymc now) (r1.1, ex_sp) with hr2
  obtain ⟨hnd2, hex2, hympres⟩ := hym
  have hpair1 : r1 = (r1.1, r1.2) := rfl
  have hpair2 : (r1.1, ex_sp) = ((r1.1, ex_sp).1, (r1.1, ex_sp).2) := rfl
  refine ⟨?_, ?_, ?_, ?_⟩
  · rw [hympres]
    exact hnd1
  · intro x hx
    rw [hympres]
    exact hex1 x hx
  · exact hnd2
  · exact hex2

/-- Witness for C4 (amended): one Spotify track propagates to an id already
liked earlier in the same pass (no second like) and an id in the initial
existing set is never liked. -/
theorem propagate_additions_no_duplicate_like_witness :
    (propagate_additions c4_env 1 2 "t0" c4_state
        [{ service := "spotify", remote_id := "s1", artist := "art a", title := "song" },
         { service := "spotify", remote_id := "s2", artist := "art a x", title := "song" }]
        [] [] []).ym_like_calls.flatten.Nodup ∧
    (∀ x, x ∈ ([] : List String) →
      x ∉ (propagate_additions c4_env 1 2 "t0" c4_state
        [{ service := "spotify", remote_id := "s1", artist := "art a", title := "song" },
         { service := "spotify", remote_id := "s2", artist := "art a x", title := "song" }]
        [] [] []).ym_like_calls.flatten) ∧
    (propagate_additions c4_env 1 2 "t0" c4_state
        [{ service := "spotify", remote_id := "s1", artist := "art a", title := "song" },
         { service := "spotify", remote_id := "s2", artist := "art a x", title := "song" }]
        [] [] []).sp_like_calls.flatten.Nodup ∧
    (∀ x, x ∈ ([] : List String) →
      x ∉ (propagate_additions c4_env 1 2 "t0" c4_state
        [{ service := "spotify", remote_id := "s1", artist := "art a", title := "song" },
         { service := "spotify", remote_id := "s2", artist := "art a x", title := "song" }]
        [] [] []).sp_like_calls.flatten) :=
  propagate_additions_no_duplicate_like c4_env 1 2 "t0" c4_state
    [{ service := "spotify", remote_id := "s1", artist := "art a", title := "song" },
     { service := "spotify", remote_id := "s2", artist := "art a x", title := "song" }]
    [] [] [] rfl rfl

end Spondex
